import Mathlib

/-!
Shallow embedding of `router.go` from the `lye/router` repository.

The Go code implements a trie-based HTTP router.  Each trie node (Go type
`subrouter`) carries a `children` map from path segment to child node and
three optional handler slots: `route`, `defaultRoute`, `errorHandler`.
Handlers are opaque function values in Go; here they are identified by
natural numbers, with `none` standing for Go's `nil` (and, in the results
of `findRoute`, for the built-in `nullRoute` / `nullErrorHandler`).

Go's `map[string]*subrouter` is modelled by an association list with
unique keys; lookup (`lookupChild`) and update (`setChild`) give exactly
the map semantics used by the code.  Go's `strings.Split(url, "/")` and
`strings.ToLower` are modelled by `splitGo` and `toLowerGo` (ASCII case
folding, which is all the router's method strings exercise).
-/

/-- Model of `strings.ToLower` on a single ASCII character. -/
def lowerChar (c : Char) : Char :=
  if 'A' ≤ c ∧ c ≤ 'Z' then Char.ofNat (c.toNat + 32) else c

/-- Model of `strings.ToLower`. -/
def toLowerGo (s : String) : String := String.mk (s.data.map lowerChar)

/-- Helper for `splitGo`: scans the characters, cutting at each slash. -/
def splitAux : List Char → List Char → List String
  | [], acc => [String.mk acc.reverse]
  | c :: cs, acc =>
    if c = '/' then String.mk acc.reverse :: splitAux cs []
    else splitAux cs (c :: acc)

/-- Model of Go's `strings.Split(s, "/")`. -/
def splitGo (s : String) : List String := splitAux s.data []

/-- Node in the Router's trie (Go type `subrouter`). -/
inductive Subrouter : Type where
  | mk (children : List (String × Subrouter)) (route : Option Nat)
      (defaultRoute : Option Nat) (errorHandler : Option Nat)

/-- The `children` field of a `subrouter`. -/
def Subrouter.children : Subrouter → List (String × Subrouter)
  | .mk c _ _ _ => c

/-- The `route` field of a `subrouter`. -/
def Subrouter.route : Subrouter → Option Nat
  | .mk _ r _ _ => r

/-- The `defaultRoute` field of a `subrouter`. -/
def Subrouter.defaultRoute : Subrouter → Option Nat
  | .mk _ _ d _ => d

/-- The `errorHandler` field of a `subrouter`. -/
def Subrouter.errorHandler : Subrouter → Option Nat
  | .mk _ _ _ e => e

/-- Go's `newSubrouter()`: a node with an empty children map and nil slots. -/
def newSubrouter : Subrouter := .mk [] none none none

/-- Assignment `sr.route = rt` (performed after the nil check in `Handle`). -/
def Subrouter.setRoute : Subrouter → Nat → Subrouter
  | .mk c _ d e, i => .mk c (some i) d e

/-- Assignment `sr.defaultRoute = rt` (in `SetDefault`). -/
def Subrouter.setDefaultRoute : Subrouter → Nat → Subrouter
  | .mk c r _ e, i => .mk c r (some i) e

/-- Assignment `sr.errorHandler = rt` (in `SetErrorHandler`). -/
def Subrouter.setErrorHandler : Subrouter → Nat → Subrouter
  | .mk c r d _, i => .mk c r d (some i)

/-- Map lookup `m[key]` on the association-list model of a Go map. -/
def lookupChild : List (String × Subrouter) → String → Option Subrouter
  | [], _ => none
  | (k, v) :: rest, key => if k = key then some v else lookupChild rest key

/-- Map assignment `m[key] = v` on the association-list model of a Go map. -/
def setChild : List (String × Subrouter) → String → Subrouter → List (String × Subrouter)
  | [], key, v => [(key, v)]
  | (k, w) :: rest, key, v =>
    if k = key then (key, v) :: rest else (k, w) :: setChild rest key v

/-- Assignment `sr.children[pathPart] = tmp` on a trie node. -/
def Subrouter.setChildAt : Subrouter → String → Subrouter → Subrouter
  | .mk c r d e, key, v => .mk (setChild c key v) r d e

/-- Go type `Router`: the top-level method map. -/
structure Router where
  children : List (String × Subrouter)

/-- Go's `NewRouter()`. -/
def NewRouter : Router := ⟨[]⟩

/-- Go's `insertSubrouter` fused with the slot update done by its caller:
descends the trie along the non-empty segments of `parts`, creating missing
nodes, and applies `f` to the terminal node.  `f` returns `none` exactly when
the caller would panic (duplicate registration), which aborts the whole
insertion; in Go a panic likewise prevents the updated trie from being used. -/
def insertSubrouter : Subrouter → List String → (Subrouter → Option Subrouter) → Option Subrouter
  | sr, [], f => f sr
  | sr, p :: ps, f =>
    if p = "" then insertSubrouter sr ps f
    else
      match insertSubrouter ((lookupChild sr.children p).getD newSubrouter) ps f with
      | none => none
      | some child => some (sr.setChildAt p child)

/-- Common body of `Handle` / `SetDefault` / `SetErrorHandler`: split the url,
lower-case the method, fetch or create the per-method root, insert, and store
the updated root back in the method map.  `none` models the Go panic. -/
def Router.register (r : Router) (method url : String)
    (f : Subrouter → Option Subrouter) : Option Router :=
  match insertSubrouter ((lookupChild r.children (toLowerGo method)).getD newSubrouter)
      (splitGo url) f with
  | none => none
  | some sr => some ⟨setChild r.children (toLowerGo method) sr⟩

/-- Go's `Router.Handle`: registers `rt` as the exact route at (method, url);
`none` models the panic on a duplicate `route` slot. -/
def Router.Handle (r : Router) (method url : String) (rt : Nat) : Option Router :=
  Router.register r method url fun sr =>
    match sr.route with
    | some _ => none
    | none => some (sr.setRoute rt)

/-- Go's `Router.SetDefault`: registers `rt` as the default route at
(method, url); `none` models the panic on a duplicate `defaultRoute` slot. -/
def Router.SetDefault (r : Router) (method url : String) (rt : Nat) : Option Router :=
  Router.register r method url fun sr =>
    match sr.defaultRoute with
    | some _ => none
    | none => some (sr.setDefaultRoute rt)

/-- Go's `Router.SetErrorHandler`: registers `rt` as the error handler at
(method, url); `none` models the panic on a duplicate `errorHandler` slot. -/
def Router.SetErrorHandler (r : Router) (method url : String) (rt : Nat) : Option Router :=
  Router.register r method url fun sr =>
    match sr.errorHandler with
    | some _ => none
    | none => some (sr.setErrorHandler rt)

/-- Go's `if x != nil { cur = x }` update used for the running default route
and error handler in `findRoute`. -/
def override (cur new : Option Nat) : Option Nat :=
  match new with
  | some x => some x
  | none => cur

/-- Result of `findRoute`: the Go function's named return values
`(rt Route, erh ErrorHandler, args []string)`.  `rt = none` is the built-in
`nullRoute`, `erh = none` the built-in `nullErrorHandler`. -/
structure FindResult where
  rt : Option Nat
  erh : Option Nat
  args : List String
deriving DecidableEq, Repr

/-- The segment loop of Go's `findRoute`: `sr` is the current node, `rt` and
`erh` the running default route / error handler, `args` the wildcard values
collected so far.  Mirrors the loop body statement for statement, including
the early `return` (which skips the trailing `sr.route` check) and the
post-loop `sr.route` override. -/
def findLoop : Subrouter → List String → Option Nat → Option Nat → List String → FindResult
  | sr, [], rt, erh, args =>
    match sr.route with
    | some r0 => ⟨some r0, erh, args⟩
    | none => ⟨rt, erh, args⟩
  | sr, p :: ps, rt, erh, args =>
    if p = "" then
      findLoop sr ps (override rt sr.defaultRoute) (override erh sr.errorHandler) args
    else
      match lookupChild sr.children p with
      | some tmp =>
        findLoop tmp ps (override rt sr.defaultRoute) (override erh sr.errorHandler) args
      | none =>
        match lookupChild sr.children "*" with
        | some tmp =>
          findLoop tmp ps (override rt sr.defaultRoute) (override erh sr.errorHandler)
            (args ++ [p])
        | none =>
          ⟨override rt sr.defaultRoute, override erh sr.errorHandler, args⟩

/-- Go's `Router.findRoute`: looks up the per-method root (after lower-casing
the method), seeds the running default route / error handler from the root,
and runs the segment loop. -/
def Router.findRoute (r : Router) (method : String) (pathParts : List String) : FindResult :=
  match lookupChild r.children (toLowerGo method) with
  | none => ⟨none, none, []⟩
  | some sr =>
    findLoop sr pathParts (override none sr.defaultRoute) (override none sr.errorHandler) []

/-- Observable invocation events of `ServeHTTP`: which handler was called,
with what arguments.  `routeCall none _` is a call of the built-in
`nullRoute`; `errorCall none _` of the built-in `nullErrorHandler`. -/
inductive Event : Type where
  | routeCall (rt : Option Nat) (args : List String)
  | errorCall (erh : Option Nat) (er : String)
deriving DecidableEq, Repr

/-- Tests whether an event is a route invocation. -/
def Event.isRoute : Event → Bool
  | .routeCall _ _ => true
  | .errorCall _ _ => false

/-- Tests whether an event is an error-handler invocation. -/
def Event.isError : Event → Bool
  | .routeCall _ _ => false
  | .errorCall _ _ => true

/-- Invoking a resolved route: a user route `some i` behaves as `beh i`, the
built-in `nullRoute` (`none`) writes a 404 and returns `nil`. -/
def runRoute (beh : Nat → List String → Option String) :
    Option Nat → List String → Option String
  | none, _ => none
  | some i, args => beh i args

/-- Go's `Router.ServeHTTP`, observed as its sequence of handler invocations:
split the request path, resolve via `findRoute`, invoke the route, and invoke
the resolved error handler exactly when the route returned a non-nil error.
`beh` gives the behaviour (returned error) of each registered handler. -/
def Router.ServeHTTP (r : Router) (beh : Nat → List String → Option String)
    (method path : String) : List Event :=
  match Router.findRoute r method (splitGo path) with
  | ⟨rt, erh, args⟩ =>
    match runRoute beh rt args with
    | none => [Event.routeCall rt args]
    | some er => [Event.routeCall rt args, Event.errorCall erh er]

/-- Walk of the trie along the literal (non-wildcard, non-empty) segment
keys, as performed by both `insertSubrouter` (which additionally creates
missing nodes) and `findRoute` on a path whose every segment has a literal
child.  Returns the node reached, or `none` if some child is missing. -/
def walkLit : Subrouter → List String → Option Subrouter
  | sr, [] => some sr
  | sr, p :: ps =>
    if p = "" then walkLit sr ps
    else
      match lookupChild sr.children p with
      | some c => walkLit c ps
      | none => none

/-- Total variant of `walkLit` that substitutes a fresh node for each
missing child — the node `insertSubrouter` applies its update to. -/
def walkLitD : Subrouter → List String → Subrouter
  | sr, [] => sr
  | sr, p :: ps =>
    if p = "" then walkLitD sr ps
    else walkLitD ((lookupChild sr.children p).getD newSubrouter) ps

/-- The trie node a (method, url) pair addresses in a router, if present. -/
def nodeAt (r : Router) (method url : String) : Option Subrouter :=
  match lookupChild r.children (toLowerGo method) with
  | none => none
  | some sr => walkLit sr (splitGo url)

/-- The trie node a registration at (method, url) would update, with
missing nodes replaced by fresh ones. -/
def nodeAtD (r : Router) (method url : String) : Subrouter :=
  walkLitD ((lookupChild r.children (toLowerGo method)).getD newSubrouter) (splitGo url)

/-- Checks that the concrete path `qs` is obtained from the registered path
`ps` by substituting, for each `*` segment, a non-empty value that is not a
literal child key of the trie node at that position (so the wildcard child,
not a literal sibling, is descended into), leaving all other segments
unchanged; and that the trie contains the corresponding children. -/
def substOK : Subrouter → List String → List String → Bool
  | _, [], [] => true
  | sr, p :: ps, q :: qs =>
    if p = "" then
      decide (q = "") && substOK sr ps qs
    else if p = "*" then
      decide (¬ q = "") &&
        (match lookupChild sr.children q with
         | some _ => false
         | none =>
           match lookupChild sr.children "*" with
           | some c => substOK c ps qs
           | none => false)
    else
      decide (q = p) &&
        (match lookupChild sr.children p with
         | some c => substOK c ps qs
         | none => false)
  | _, _, _ => false

/-- The ordered values substituted for the `*` segments of `ps` in `qs`. -/
def substArgs : List String → List String → List String
  | [], _ => []
  | _ :: _, [] => []
  | p :: ps, q :: qs => if p = "*" then q :: substArgs ps qs else substArgs ps qs

/-- Resolved route and args for a request, used to state the scenarios. -/
def resolve (r : Router) (method path : String) : Option Nat × List String :=
  match Router.findRoute r method (splitGo path) with
  | ⟨rt, _, args⟩ => (rt, args)

/-- Scenario router of the default-route scenario: default "/" → 1,
default "/foo" → 2, route "/bar" → 3, route "/foo/bar" → 4. -/
def scenarioDefaults : Option Router :=
  (Router.SetDefault NewRouter "GET" "/" 1).bind fun r =>
  (Router.SetDefault r "GET" "/foo" 2).bind fun r =>
  (Router.Handle r "GET" "/bar" 3).bind fun r =>
  Router.Handle r "GET" "/foo/bar" 4

/-- Scenario router of the wildcard scenario: route "/" → 1, "/*" → 2,
"/*/*" → 3, "/foo/*" → 4, "/*/foo" → 5, default "/" → 6. -/
def scenarioArgs : Option Router :=
  (Router.Handle NewRouter "GET" "/" 1).bind fun r =>
  (Router.Handle r "GET" "/*" 2).bind fun r =>
  (Router.Handle r "GET" "/*/*" 3).bind fun r =>
  (Router.Handle r "GET" "/foo/*" 4).bind fun r =>
  (Router.Handle r "GET" "/*/foo" 5).bind fun r =>
  Router.SetDefault r "GET" "/" 6

/-- Router with routes at "/*" and "/foo/bar": the substituted value "foo"
collides with the literal child "foo" of the root. -/
def collideRouter : Option Router :=
  (Router.Handle NewRouter "get" "/*" 2).bind fun r =>
  Router.Handle r "get" "/foo/bar" 7

@[simp] theorem Subrouter.children_mk (c r d e) : (Subrouter.mk c r d e).children = c := rfl

@[simp] theorem Subrouter.route_mk (c r d e) : (Subrouter.mk c r d e).route = r := rfl

@[simp] theorem Subrouter.defaultRoute_mk (c r d e) : (Subrouter.mk c r d e).defaultRoute = d := rfl

@[simp] theorem Subrouter.errorHandler_mk (c r d e) : (Subrouter.mk c r d e).errorHandler = e := rfl

@[simp] theorem children_setChildAt (sr : Subrouter) (p : String) (v : Subrouter) :
    (sr.setChildAt p v).children = setChild sr.children p v := by
  cases sr; rfl

@[simp] theorem route_setChildAt (sr : Subrouter) (p : String) (v : Subrouter) :
    (sr.setChildAt p v).route = sr.route := by
  cases sr; rfl

@[simp] theorem lookupChild_cons_self (k : String) (v : Subrouter)
    (l : List (String × Subrouter)) : lookupChild ((k, v) :: l) k = some v := by
  simp [lookupChild]

theorem lookupChild_setChild_self (l : List (String × Subrouter)) (k : String) (v : Subrouter) :
    lookupChild (setChild l k v) k = some v := by
  induction l with
  | nil => simp [setChild, lookupChild]
  | cons hd tl ih =>
    obtain ⟨k', w⟩ := hd
    by_cases hk : k' = k
    · simp [setChild, hk]
    · simp [setChild, hk, lookupChild, ih]

theorem walkLit_walkLitD (parts : List String) :
    ∀ sr t : Subrouter, walkLit sr parts = some t → walkLitD sr parts = t := by
  induction parts with
  | nil => intro sr t h; simpa [walkLit, walkLitD] using h
  | cons p ps ih =>
    intro sr t h
    by_cases hp : p = ""
    · simp only [walkLit, if_pos hp] at h
      simpa [walkLitD, if_pos hp] using ih sr t h
    · simp only [walkLit, if_neg hp] at h
      cases hc : lookupChild sr.children p with
      | none => rw [hc] at h; exact absurd h (by simp)
      | some c =>
        rw [hc] at h
        simp only [walkLitD, if_neg hp, hc, Option.getD_some]
        exact ih c t h

theorem walkLitD_new (parts : List String) : walkLitD newSubrouter parts = newSubrouter := by
  induction parts with
  | nil => rfl
  | cons p ps ih =>
    by_cases hp : p = ""
    · simp [walkLitD, hp, ih]
    · simp only [walkLitD, if_neg hp, newSubrouter, lookupChild, Option.getD_none]
      exact ih

theorem insertSubrouter_spec (parts : List String) :
    ∀ (sr sr' : Subrouter) (f : Subrouter → Option Subrouter),
      insertSubrouter sr parts f = some sr' →
      ∃ n', f (walkLitD sr parts) = some n' ∧ walkLit sr' parts = some n' := by
  induction parts with
  | nil =>
    intro sr sr' f h
    exact ⟨sr', by simpa [insertSubrouter, walkLitD] using h, by simp [walkLit]⟩
  | cons p ps ih =>
    intro sr sr' f h
    by_cases hp : p = ""
    · simp only [insertSubrouter, if_pos hp] at h
      obtain ⟨n', hf, hw⟩ := ih sr sr' f h
      exact ⟨n', by simpa [walkLitD, if_pos hp] using hf, by simp [walkLit, if_pos hp, hw]⟩
    · simp only [insertSubrouter, if_neg hp] at h
      cases hins : insertSubrouter ((lookupChild sr.children p).getD newSubrouter) ps f with
      | none => rw [hins] at h; exact absurd h (by simp)
      | some child =>
        rw [hins] at h
        obtain ⟨n', hf, hw⟩ := ih _ child f hins
        refine ⟨n', by simpa [walkLitD, if_neg hp] using hf, ?_⟩
        have hsr' : sr' = sr.setChildAt p child := by
          cases h; rfl
        subst hsr'
        simp [walkLit, if_neg hp, lookupChild_setChild_self, hw]

theorem insertSubrouter_none (parts : List String) :
    ∀ (sr : Subrouter) (f : Subrouter → Option Subrouter),
      f (walkLitD sr parts) = none → insertSubrouter sr parts f = none := by
  induction parts with
  | nil => intro sr f h; simpa [insertSubrouter, walkLitD] using h
  | cons p ps ih =>
    intro sr f h
    by_cases hp : p = ""
    · simp only [walkLitD, if_pos hp] at h
      simp [insertSubrouter, if_pos hp, ih sr f h]
    · simp only [walkLitD, if_neg hp] at h
      simp [insertSubrouter, if_neg hp, ih _ f h]

theorem insertSubrouter_some (parts : List String) :
    ∀ (sr : Subrouter) (f : Subrouter → Option Subrouter) (n' : Subrouter),
      f (walkLitD sr parts) = some n' →
      ∃ sr', insertSubrouter sr parts f = some sr' := by
  induction parts with
  | nil => intro sr f n' h; exact ⟨n', by simpa [insertSubrouter, walkLitD] using h⟩
  | cons p ps ih =>
    intro sr f n' h
    by_cases hp : p = ""
    · simp only [walkLitD, if_pos hp] at h
      obtain ⟨sr', hsr'⟩ := ih sr f n' h
      exact ⟨sr', by simp [insertSubrouter, if_pos hp, hsr']⟩
    · simp only [walkLitD, if_neg hp] at h
      obtain ⟨child, hchild⟩ := ih _ f n' h
      exact ⟨sr.setChildAt p child, by simp [insertSubrouter, if_neg hp, hchild]⟩

theorem register_spec (r : Router) (m u : String) (f : Subrouter → Option Subrouter)
    (r' : Router) (h : Router.register r m u f = some r') :
    ∃ n', f (nodeAtD r m u) = some n' ∧ nodeAt r' m u = some n' := by
  unfold Router.register at h
  cases hins : insertSubrouter ((lookupChild r.children (toLowerGo m)).getD newSubrouter)
      (splitGo u) f with
  | none => rw [hins] at h; exact absurd h (by simp)
  | some sr' =>
    rw [hins] at h
    obtain ⟨n', hf, hw⟩ := insertSubrouter_spec _ _ _ _ hins
    refine ⟨n', hf, ?_⟩
    have hr' : r' = ⟨setChild r.children (toLowerGo m) sr'⟩ := by cases h; rfl
    subst hr'
    simp [nodeAt, lookupChild_setChild_self, hw]

theorem register_none (r : Router) (m u : String) (f : Subrouter → Option Subrouter)
    (h : f (nodeAtD r m u) = none) : Router.register r m u f = none := by
  have hins := insertSubrouter_none (splitGo u)
    ((lookupChild r.children (toLowerGo m)).getD newSubrouter) f h
  unfold Router.register
  rw [hins]

theorem register_some (r : Router) (m u : String) (f : Subrouter → Option Subrouter)
    (n' : Subrouter) (h : f (nodeAtD r m u) = some n') :
    ∃ r', Router.register r m u f = some r' ∧ nodeAt r' m u = some n' := by
  obtain ⟨sr', hsr'⟩ := insertSubrouter_some (splitGo u)
    ((lookupChild r.children (toLowerGo m)).getD newSubrouter) f n' h
  refine ⟨⟨setChild r.children (toLowerGo m) sr'⟩, ?_, ?_⟩
  · unfold Router.register; rw [hsr']
  · obtain ⟨n'', hf, hw⟩ := insertSubrouter_spec _ _ _ _ hsr'
    have hn : n'' = n' := Option.some.inj (hf.symm.trans h)
    subst hn
    simp [nodeAt, lookupChild_setChild_self, hw]

theorem nodeAt_nodeAtD (r : Router) (m u : String) (t : Subrouter)
    (h : nodeAt r m u = some t) : nodeAtD r m u = t := by
  unfold nodeAt at h
  cases hl : lookupChild r.children (toLowerGo m) with
  | none => rw [hl] at h; exact absurd h (by simp)
  | some sr =>
    rw [hl] at h
    unfold nodeAtD
    rw [hl]
    exact walkLit_walkLitD (splitGo u) sr t h

theorem nodeAtD_new (m u : String) : nodeAtD NewRouter m u = newSubrouter := by
  unfold nodeAtD NewRouter
  exact walkLitD_new (splitGo u)

theorem findLoop_walkLit (parts : List String) :
    ∀ (sr t : Subrouter) (rid : Nat) (rt erh : Option Nat) (args : List String),
      walkLit sr parts = some t → t.route = some rid →
      (findLoop sr parts rt erh args).rt = some rid ∧
      (findLoop sr parts rt erh args).args = args := by
  induction parts with
  | nil =>
    intro sr t rid rt erh args hw hr
    obtain rfl : sr = t := by simpa [walkLit] using hw
    simp [findLoop, hr]
  | cons p ps ih =>
    intro sr t rid rt erh args hw hr
    by_cases hp : p = ""
    · simp only [walkLit, if_pos hp] at hw
      simpa [findLoop, if_pos hp] using ih sr t rid _ _ args hw hr
    · simp only [walkLit, if_neg hp] at hw
      cases hc : lookupChild sr.children p with
      | none => rw [hc] at hw; exact absurd hw (by simp)
      | some c =>
        rw [hc] at hw
        simpa [findLoop, if_neg hp, hc] using ih c t rid _ _ args hw hr

theorem findLoop_subst (ps : List String) :
    ∀ (qs : List String) (sr t : Subrouter) (rid : Nat) (rt erh : Option Nat)
      (args : List String),
      substOK sr ps qs = true → walkLit sr ps = some t → t.route = some rid →
      (findLoop sr qs rt erh args).rt = some rid ∧
      (findLoop sr qs rt erh args).args = args ++ substArgs ps qs := by
  induction ps with
  | nil =>
    intro qs sr t rid rt erh args hs hw hr
    cases qs with
    | nil =>
      obtain rfl : sr = t := by simpa [walkLit] using hw
      simp [findLoop, hr, substArgs]
    | cons q qs' => simp [substOK] at hs
  | cons p ps' ih =>
    intro qs sr t rid rt erh args hs hw hr
    cases qs with
    | nil => simp [substOK] at hs
    | cons q qs' =>
      by_cases hp : p = ""
      · have hpstar : ¬ p = "*" := by rw [hp]; decide
        simp only [substOK, if_pos hp, Bool.and_eq_true, decide_eq_true_eq] at hs
        obtain ⟨hq, hs'⟩ := hs
        simp only [walkLit, if_pos hp] at hw
        have hIH := ih qs' sr t rid (override rt sr.defaultRoute)
          (override erh sr.errorHandler) args hs' hw hr
        simp only [findLoop, if_pos hq, substArgs, if_neg hpstar]
        exact hIH
      · by_cases hps : p = "*"
        · simp only [substOK, if_neg hp, if_pos hps, Bool.and_eq_true, decide_eq_true_eq] at hs
          obtain ⟨hq, hs'⟩ := hs
          cases hcq : lookupChild sr.children q with
          | some c => rw [hcq] at hs'; exact absurd hs' (by simp)
          | none =>
            rw [hcq] at hs'
            cases hcw : lookupChild sr.children "*" with
            | none => rw [hcw] at hs'; exact absurd hs' (by simp)
            | some c =>
              rw [hcw] at hs'
              simp only [walkLit, if_neg hp, hps, hcw] at hw
              have hIH := ih qs' c t rid (override rt sr.defaultRoute)
                (override erh sr.errorHandler) (args ++ [q]) hs' hw hr
              simp only [findLoop, if_neg hq, hcq, hcw, substArgs, if_pos hps]
              refine ⟨hIH.1, ?_⟩
              rw [hIH.2]
              simp
        · simp only [substOK, if_neg hp, if_neg hps, Bool.and_eq_true, decide_eq_true_eq] at hs
          obtain ⟨hq, hs'⟩ := hs
          cases hc : lookupChild sr.children p with
          | none => rw [hc] at hs'; exact absurd hs' (by simp)
          | some c =>
            rw [hc] at hs'
            simp only [walkLit, if_neg hp, hc] at hw
            have hIH := ih qs' c t rid (override rt sr.defaultRoute)
              (override erh sr.errorHandler) args hs' hw hr
            simp only [findLoop, hq, if_neg hp, hc, substArgs, if_neg hps]
            exact hIH

@[simp] theorem route_setRoute (sr : Subrouter) (i : Nat) :
    (sr.setRoute i).route = some i := by cases sr; rfl

@[simp] theorem defaultRoute_setRoute (sr : Subrouter) (i : Nat) :
    (sr.setRoute i).defaultRoute = sr.defaultRoute := by cases sr; rfl

@[simp] theorem errorHandler_setRoute (sr : Subrouter) (i : Nat) :
    (sr.setRoute i).errorHandler = sr.errorHandler := by cases sr; rfl

@[simp] theorem route_setDefaultRoute (sr : Subrouter) (i : Nat) :
    (sr.setDefaultRoute i).route = sr.route := by cases sr; rfl

@[simp] theorem defaultRoute_setDefaultRoute (sr : Subrouter) (i : Nat) :
    (sr.setDefaultRoute i).defaultRoute = some i := by cases sr; rfl

@[simp] theorem errorHandler_setDefaultRoute (sr : Subrouter) (i : Nat) :
    (sr.setDefaultRoute i).errorHandler = sr.errorHandler := by cases sr; rfl

@[simp] theorem route_setErrorHandler (sr : Subrouter) (i : Nat) :
    (sr.setErrorHandler i).route = sr.route := by cases sr; rfl

@[simp] theorem defaultRoute_setErrorHandler (sr : Subrouter) (i : Nat) :
    (sr.setErrorHandler i).defaultRoute = sr.defaultRoute := by cases sr; rfl

@[simp] theorem errorHandler_setErrorHandler (sr : Subrouter) (i : Nat) :
    (sr.setErrorHandler i).errorHandler = some i := by cases sr; rfl

theorem findRoute_eq (r : Router) (m : String) (sr : Subrouter) (parts : List String)
    (h : lookupChild r.children (toLowerGo m) = some sr) :
    Router.findRoute r m parts
      = findLoop sr parts (override none sr.defaultRoute) (override none sr.errorHandler) [] := by
  unfold Router.findRoute
  rw [h]

theorem insertSubrouter_filter (parts : List String) :
    ∀ (sr : Subrouter) (f : Subrouter → Option Subrouter),
      insertSubrouter sr parts f
        = insertSubrouter sr (parts.filter fun p => !decide (p = "")) f := by
  induction parts with
  | nil => intro sr f; rfl
  | cons p ps ih =>
    intro sr f
    by_cases hp : p = ""
    · have h1 : insertSubrouter sr (p :: ps) f = insertSubrouter sr ps f := by
        simp [insertSubrouter, if_pos hp]
      have h2 : (p :: ps).filter (fun q => !decide (q = ""))
          = ps.filter (fun q => !decide (q = "")) := by
        subst hp; simp
      rw [h1, h2, ih sr f]
    · have h2 : (p :: ps).filter (fun q => !decide (q = ""))
          = p :: ps.filter (fun q => !decide (q = "")) := by
        simp [hp]
      rw [h2]
      simp only [insertSubrouter, if_neg hp]
      rw [ih ((lookupChild sr.children p).getD newSubrouter) f]

/-- Claim C3: with defaults D1 at "/" and D2 at "/foo" and routes R3 at
"/bar" and R4 at "/foo/bar" (one method), findRoute resolves "/" to D1,
"/foo" to D1, "/foo/" to D2, "/baz" to D1, "/bar" to R3, "/foo/bar" to R4
and "/foo/baz" to D2: an empty segment skips descent but still inherits the
current node's default, so "/foo" and "/foo/" get different defaults, and a
deeper default overrides a shallower one. -/
theorem claim_C3_scenario :
    (scenarioDefaults.map fun r =>
      [resolve r "GET" "/", resolve r "GET" "/foo", resolve r "GET" "/foo/",
       resolve r "GET" "/baz", resolve r "GET" "/bar", resolve r "GET" "/foo/bar",
       resolve r "GET" "/foo/baz"])
    = some [(some 1, []), (some 1, []), (some 2, []), (some 1, []), (some 3, []),
            (some 4, []), (some 2, [])] := by decide

/-- Claim C4: with routes R1 "/", R2 "/*", R3 "/*/*", R4 "/foo/*",
R5 "/*/foo" and default D6 at "/" (one method), findRoute resolves "/foo"
to D6 with no args (the literal "foo" node exists but carries no route, so
the inherited default applies instead of the wildcard route R2), "/bar" to
R2 with ["bar"], "/foo/bar" to R4 with ["bar"], "/bar/foo" to R5 with
["bar"], and "/bar/bar" to R3 with ["bar", "bar"]. -/
theorem claim_C4_scenario :
    (scenarioArgs.map fun r =>
      [resolve r "GET" "/foo", resolve r "GET" "/bar", resolve r "GET" "/foo/bar",
       resolve r "GET" "/bar/foo", resolve r "GET" "/bar/bar"])
    = some [(some 6, []), (some 2, ["bar"]), (some 4, ["bar"]), (some 5, ["bar"]),
            (some 3, ["bar", "bar"])] := by decide

/-- Claim C5: when a non-empty segment matches neither a literal child nor
the wildcard child of the current node, the walk of findRoute terminates
immediately — the remaining segments `ps` are ignored and no trailing
`route` check runs — returning the most recently inherited default route
(with `none` the built-in not-found route), the most recently inherited
error handler, and the wildcard args accumulated so far.  The result is
ordinary data, not a failure: no error handler is invoked in producing it. -/
theorem claim_C5_deadEnd (sr : Subrouter) (p : String) (ps : List String)
    (rt erh : Option Nat) (args : List String)
    (hp : ¬ p = "") (h1 : lookupChild sr.children p = none)
    (h2 : lookupChild sr.children "*" = none) :
    findLoop sr (p :: ps) rt erh args
      = ⟨override rt sr.defaultRoute, override erh sr.errorHandler, args⟩ := by
  simp [findLoop, if_neg hp, h1, h2]

/-- Witness for C5 at a concrete dead end: the node has no children, the
inherited default `some 5` and args `["a"]` are returned and the remaining
segment "y" is ignored. -/
theorem claim_C5_witness :
    findLoop newSubrouter ["x", "y"] (some 5) none ["a"] = ⟨some 5, none, ["a"]⟩ :=
  claim_C5_deadEnd newSubrouter "x" ["y"] (some 5) none ["a"] (by decide) rfl rfl

/-- Claim C6: a method whose lower-cased form has no per-method root
resolves, for every path, to the built-in no-op route and no-op error
handler (both modelled by `none`) with empty args — findRoute does not
fail. -/
theorem claim_C6_unknownMethod (r : Router) (method : String) (pathParts : List String)
    (h : lookupChild r.children (toLowerGo method) = none) :
    Router.findRoute r method pathParts = ⟨none, none, []⟩ := by
  unfold Router.findRoute
  rw [h]

/-- Witness for C6: an empty router resolves a GET request to the built-in
handlers. -/
theorem claim_C6_witness :
    Router.findRoute NewRouter "GET" ["", "foo"] = ⟨none, none, []⟩ :=
  claim_C6_unknownMethod NewRouter "GET" ["", "foo"] rfl

/-- Counterexample to claim C1 as stated: with routes 2 at "/*" and 7 at
"/foo/bar" registered, the concrete path "/foo" substitutes the non-empty
value "foo" for the `*` of "/*", yet findRoute returns the built-in
not-found route with no args (value `(none, [])`), not route 2 with args
["foo"]: the literal child "foo" created by the second registration is
preferred over the wildcard child. -/
theorem claim_C1_counterexample :
    (collideRouter.map fun r => resolve r "get" "/foo") = some (none, []) ∧
    ((none : Option Nat), ([] : List String)) ≠ (some 2, ["foo"]) := by decide

/-- Claim C2: after a successful `Handle` registration of route `rid` at
(method, path) where path has no trailing slash, findRoute on exactly that
method and path returns `rid` with empty args: the walk follows the literal
children the registration created, so the wildcard fallback never fires and
no args are collected. -/
theorem claim_C2_exact (r r' : Router) (method path : String) (rid : Nat)
    (_hts : path.data.getLast? ≠ some '/')
    (h : Router.Handle r method path rid = some r') :
    (Router.findRoute r' method (splitGo path)).rt = some rid ∧
    (Router.findRoute r' method (splitGo path)).args = [] := by
  unfold Router.Handle at h
  obtain ⟨n', hf, hn⟩ := register_spec r method path _ r' h
  have hroute : n'.route = some rid := by
    cases hx : (nodeAtD r method path).route with
    | some v => simp only [hx] at hf; exact absurd hf (by simp)
    | none =>
      simp only [hx] at hf
      obtain rfl : (nodeAtD r method path).setRoute rid = n' := Option.some.inj hf
      simp
  unfold nodeAt at hn
  cases hl : lookupChild r'.children (toLowerGo method) with
  | none => rw [hl] at hn; exact absurd hn (by simp)
  | some sr =>
    rw [hl] at hn
    have hres := findLoop_walkLit (splitGo path) sr n' rid
      (override none sr.defaultRoute) (override none sr.errorHandler) [] hn hroute
    rw [findRoute_eq r' method sr (splitGo path) hl]
    exact hres

/-- Witness for C2: registering route 1 at ("get", "/a") in an empty router
and requesting "/a" returns route 1 with no args. -/
theorem claim_C2_witness :
    (Router.findRoute
        ⟨[("get", Subrouter.mk [("a", Subrouter.mk [] (some 1) none none)] none none none)]⟩
        "get" (splitGo "/a")).rt = some 1 ∧
    (Router.findRoute
        ⟨[("get", Subrouter.mk [("a", Subrouter.mk [] (some 1) none none)] none none none)]⟩
        "get" (splitGo "/a")).args = [] :=
  claim_C2_exact NewRouter
    ⟨[("get", Subrouter.mk [("a", Subrouter.mk [] (some 1) none none)] none none none)]⟩
    "get" "/a" 1 (by decide) rfl

/-- Claim C10: after registering a route at "/*" in a fresh router, a
request path segment that is literally "*" matches the wildcard child as an
ordinary literal key and appends nothing to args, while any other non-empty
segment `x` reaches the same route through the wildcard fallback with args
`[x]`: the wildcard key "*" shares one namespace with literal segment
names. -/
theorem claim_C10_starLiteral (m : String) (i : Nat) (r' : Router)
    (h : Router.Handle NewRouter m "/*" i = some r') :
    Router.findRoute r' m ["", "*"] = ⟨some i, none, []⟩ ∧
    (∀ x : String, ¬ x = "" → ¬ x = "*" →
      Router.findRoute r' m ["", x] = ⟨some i, none, [x]⟩) := by
  have hcomp : Router.Handle NewRouter m "/*" i
      = some ⟨[(toLowerGo m,
          Subrouter.mk [("*", Subrouter.mk [] (some i) none none)] none none none)]⟩ := rfl
  rw [hcomp] at h
  obtain rfl := Option.some.inj h
  refine ⟨?_, ?_⟩
  · rw [findRoute_eq _ m _ _ (lookupChild_cons_self _ _ _)]
    rfl
  · intro x hx hxs
    rw [findRoute_eq _ m _ _ (lookupChild_cons_self _ _ _)]
    have hsx : ¬ ("*" = x) := fun hh => hxs hh.symm
    simp [findLoop, lookupChild, if_neg hx, if_neg hsx, override]

/-- Witness for C10 with route 3 at ("get", "/*"): the request segment "*"
returns route 3 with no args, while "bar" returns route 3 with args
["bar"]. -/
theorem claim_C10_witness :
    Router.findRoute
        ⟨[("get", Subrouter.mk [("*", Subrouter.mk [] (some 3) none none)] none none none)]⟩
        "get" ["", "*"] = ⟨some 3, none, []⟩ ∧
    Router.findRoute
        ⟨[("get", Subrouter.mk [("*", Subrouter.mk [] (some 3) none none)] none none none)]⟩
        "get" ["", "bar"] = ⟨some 3, none, ["bar"]⟩ :=
  ⟨(claim_C10_starLiteral "get" 3 _ rfl).1,
   (claim_C10_starLiteral "get" 3 _ rfl).2 "bar" (by decide) (by decide)⟩

/-- Claim C1 (amended): for a route `rid` stored at the trie node reached by
literally walking the registered path `ps`, a concrete path `qs` that
substitutes a non-empty value for each `*` segment of `ps` — provided each
substituted value is not itself a key among the literal children of the
trie node at that position (in particular not "*") — resolves to `rid`
with args equal to the ordered sequence of substituted values
(`substArgs ps qs`).  Moreover, at every trie level, when a literal child
matching the segment exists it is descended into, so the wildcard child is
consulted only when no literal child matches, and only a wildcard descent
appends the segment's value to args. -/
theorem claim_C1_substitution :
    (∀ (r : Router) (method : String) (sr t : Subrouter) (ps qs : List String) (rid : Nat),
      lookupChild r.children (toLowerGo method) = some sr →
      substOK sr ps qs = true →
      walkLit sr ps = some t → t.route = some rid →
      (Router.findRoute r method qs).rt = some rid ∧
      (Router.findRoute r method qs).args = substArgs ps qs) ∧
    (∀ (sr c : Subrouter) (p : String) (ps : List String) (rt erh : Option Nat)
      (args : List String),
      ¬ p = "" → lookupChild sr.children p = some c →
      findLoop sr (p :: ps) rt erh args =
        findLoop c ps (override rt sr.defaultRoute) (override erh sr.errorHandler) args) := by
  constructor
  · intro r method sr t ps qs rid hl hs hw hr
    have h := findLoop_subst ps qs sr t rid (override none sr.defaultRoute)
      (override none sr.errorHandler) [] hs hw hr
    rw [findRoute_eq r method sr qs hl]
    simpa using h
  · intro sr c p ps rt erh args hp hc
    simp [findLoop, if_neg hp, hc]

/-- Witness for C1 with route 5 at ("get", "/*/foo"): the concrete path
segments ["", "bar", "foo"] substitute "bar" for the "*" and resolve to
route 5 with args ["bar"]. -/
theorem claim_C1_witness :
    (Router.findRoute
        ⟨[("get", Subrouter.mk
            [("*", Subrouter.mk [("foo", Subrouter.mk [] (some 5) none none)] none none none)]
            none none none)]⟩
        "get" ["", "bar", "foo"]).rt = some 5 ∧
    (Router.findRoute
        ⟨[("get", Subrouter.mk
            [("*", Subrouter.mk [("foo", Subrouter.mk [] (some 5) none none)] none none none)]
            none none none)]⟩
        "get" ["", "bar", "foo"]).args = substArgs ["", "*", "foo"] ["", "bar", "foo"] :=
  claim_C1_substitution.1
    ⟨[("get", Subrouter.mk
        [("*", Subrouter.mk [("foo", Subrouter.mk [] (some 5) none none)] none none none)]
        none none none)]⟩
    "get"
    (Subrouter.mk
      [("*", Subrouter.mk [("foo", Subrouter.mk [] (some 5) none none)] none none none)]
      none none none)
    (Subrouter.mk [] (some 5) none none)
    ["", "*", "foo"] ["", "bar", "foo"] 5 rfl (by decide) rfl rfl

/-- Claim C7: each of Handle, SetDefault and SetErrorHandler panics
(modelled as `none`) when invoked a second time for the identical
(method, url) pair on the same slot, and a successful registration sets
exactly its slot on the terminal trie node; the three slots are
independent, so from a fresh router a Handle, a SetDefault and a
SetErrorHandler at the same (method, url) all succeed in sequence. -/
theorem claim_C7_registration :
    (∀ (r r' : Router) (m u : String) (i j : Nat),
      Router.Handle r m u i = some r' →
      Router.Handle r' m u j = none ∧
      ∃ t, nodeAt r' m u = some t ∧ t.route = some i) ∧
    (∀ (r r' : Router) (m u : String) (i j : Nat),
      Router.SetDefault r m u i = some r' →
      Router.SetDefault r' m u j = none ∧
      ∃ t, nodeAt r' m u = some t ∧ t.defaultRoute = some i) ∧
    (∀ (r r' : Router) (m u : String) (i j : Nat),
      Router.SetErrorHandler r m u i = some r' →
      Router.SetErrorHandler r' m u j = none ∧
      ∃ t, nodeAt r' m u = some t ∧ t.errorHandler = some i) ∧
    (∀ (m u : String) (i j k : Nat), ∃ r₁ r₂ r₃ : Router,
      Router.Handle NewRouter m u i = some r₁ ∧
      Router.SetDefault r₁ m u j = some r₂ ∧
      Router.SetErrorHandler r₂ m u k = some r₃) := by
  refine ⟨?_, ?_, ?_, ?_⟩
  · intro r r' m u i j h
    unfold Router.Handle at h ⊢
    obtain ⟨n', hf, hn⟩ := register_spec r m u _ r' h
    cases hx : (nodeAtD r m u).route with
    | some v => simp only [hx] at hf; exact absurd hf (by simp)
    | none =>
      simp only [hx] at hf
      obtain rfl : (nodeAtD r m u).setRoute i = n' := Option.some.inj hf
      refine ⟨?_, _, hn, by simp⟩
      apply register_none
      rw [nodeAt_nodeAtD r' m u _ hn]
      simp
  · intro r r' m u i j h
    unfold Router.SetDefault at h ⊢
    obtain ⟨n', hf, hn⟩ := register_spec r m u _ r' h
    cases hx : (nodeAtD r m u).defaultRoute with
    | some v => simp only [hx] at hf; exact absurd hf (by simp)
    | none =>
      simp only [hx] at hf
      obtain rfl : (nodeAtD r m u).setDefaultRoute i = n' := Option.some.inj hf
      refine ⟨?_, _, hn, by simp⟩
      apply register_none
      rw [nodeAt_nodeAtD r' m u _ hn]
      simp
  · intro r r' m u i j h
    unfold Router.SetErrorHandler at h ⊢
    obtain ⟨n', hf, hn⟩ := register_spec r m u _ r' h
    cases hx : (nodeAtD r m u).errorHandler with
    | some v => simp only [hx] at hf; exact absurd hf (by simp)
    | none =>
      simp only [hx] at hf
      obtain rfl : (nodeAtD r m u).setErrorHandler i = n' := Option.some.inj hf
      refine ⟨?_, _, hn, by simp⟩
      apply register_none
      rw [nodeAt_nodeAtD r' m u _ hn]
      simp
  · intro m u i j k
    have h1 : (fun sr => match sr.route with
        | some _ => none
        | none => some (sr.setRoute i)) (nodeAtD NewRouter m u)
        = some (newSubrouter.setRoute i) := by
      rw [nodeAtD_new]
      rfl
    obtain ⟨r₁, hr₁, hn₁⟩ := register_some NewRouter m u
      (fun sr => match sr.route with
        | some _ => none
        | none => some (sr.setRoute i)) _ h1
    have h2 : (fun sr => match sr.defaultRoute with
        | some _ => none
        | none => some (sr.setDefaultRoute j)) (nodeAtD r₁ m u)
        = some ((newSubrouter.setRoute i).setDefaultRoute j) := by
      rw [nodeAt_nodeAtD r₁ m u _ hn₁]
      rfl
    obtain ⟨r₂, hr₂, hn₂⟩ := register_some r₁ m u
      (fun sr => match sr.defaultRoute with
        | some _ => none
        | none => some (sr.setDefaultRoute j)) _ h2
    have h3 : (fun sr => match sr.errorHandler with
        | some _ => none
        | none => some (sr.setErrorHandler k)) (nodeAtD r₂ m u)
        = some (((newSubrouter.setRoute i).setDefaultRoute j).setErrorHandler k) := by
      rw [nodeAt_nodeAtD r₂ m u _ hn₂]
      rfl
    obtain ⟨r₃, hr₃, hn₃⟩ := register_some r₂ m u
      (fun sr => match sr.errorHandler with
        | some _ => none
        | none => some (sr.setErrorHandler k)) _ h3
    exact ⟨r₁, r₂, r₃, hr₁, hr₂, hr₃⟩

/-- Witness for C7: after registering route 1 at ("get", "/a") in a fresh
router, a second Handle at the same pair panics and the terminal node
carries route 1. -/
theorem claim_C7_witness :
    Router.Handle
        ⟨[("get", Subrouter.mk [("a", Subrouter.mk [] (some 1) none none)] none none none)]⟩
        "get" "/a" 2 = none ∧
    ∃ t, nodeAt
        ⟨[("get", Subrouter.mk [("a", Subrouter.mk [] (some 1) none none)] none none none)]⟩
        "get" "/a" = some t ∧ t.route = some 1 :=
  claim_C7_registration.1 NewRouter
    ⟨[("get", Subrouter.mk [("a", Subrouter.mk [] (some 1) none none)] none none none)]⟩
    "get" "/a" 1 2 rfl

/-- Claim C8: for every request, ServeHTTP invokes the resolved route
exactly once (exactly one route-invocation event, and it carries the
resolved route and args); when the route invocation returns no failure
there is no error-handler invocation, and when it returns a failure the
error handler resolved for that same request is invoked exactly once with
that failure. -/
theorem claim_C8_dispatch (r : Router) (beh : Nat → List String → Option String)
    (method path : String) :
    (Router.ServeHTTP r beh method path).countP Event.isRoute = 1 ∧
    (Router.ServeHTTP r beh method path).head? =
      some (Event.routeCall (Router.findRoute r method (splitGo path)).rt
        (Router.findRoute r method (splitGo path)).args) ∧
    (runRoute beh (Router.findRoute r method (splitGo path)).rt
        (Router.findRoute r method (splitGo path)).args = none →
      Router.ServeHTTP r beh method path
        = [Event.routeCall (Router.findRoute r method (splitGo path)).rt
            (Router.findRoute r method (splitGo path)).args]) ∧
    (runRoute beh (Router.findRoute r method (splitGo path)).rt
        (Router.findRoute r method (splitGo path)).args = none →
      (Router.ServeHTTP r beh method path).countP Event.isError = 0) ∧
    (∀ er, runRoute beh (Router.findRoute r method (splitGo path)).rt
        (Router.findRoute r method (splitGo path)).args = some er →
      Router.ServeHTTP r beh method path
        = [Event.routeCall (Router.findRoute r method (splitGo path)).rt
            (Router.findRoute r method (splitGo path)).args,
           Event.errorCall (Router.findRoute r method (splitGo path)).erh er] ∧
      (Router.ServeHTTP r beh method path).countP Event.isError = 1) := by
  cases hres : Router.findRoute r method (splitGo path) with
  | mk rt0 erh0 args0 =>
    have hserve : Router.ServeHTTP r beh method path
        = match runRoute beh rt0 args0 with
          | none => [Event.routeCall rt0 args0]
          | some er => [Event.routeCall rt0 args0, Event.errorCall erh0 er] := by
      unfold Router.ServeHTTP
      rw [hres]
    cases hrun : runRoute beh rt0 args0 with
    | none =>
      rw [hrun] at hserve
      refine ⟨?_, ?_, ?_, ?_, ?_⟩ <;>
        simp [hserve, hrun, Event.isRoute, Event.isError, List.countP_cons, List.countP_nil]
    | some er0 =>
      rw [hrun] at hserve
      refine ⟨?_, ?_, ?_, ?_, ?_⟩ <;>
        simp [hserve, hrun, Event.isRoute, Event.isError, List.countP_cons, List.countP_nil]

/-- Witness for C8: in an empty router the built-in route is invoked once
and succeeds, so no error handler runs; with route 1 at ("get", "/a") whose
behaviour is the failure "boom", the dispatch emits exactly the route call
followed by one error-handler call carrying "boom". -/
theorem claim_C8_witness :
    Router.ServeHTTP NewRouter (fun _ _ => none) "GET" "/x" = [Event.routeCall none []] ∧
    (Router.ServeHTTP NewRouter (fun _ _ => none) "GET" "/x").countP Event.isError = 0 ∧
    Router.ServeHTTP
        ⟨[("get", Subrouter.mk [("a", Subrouter.mk [] (some 1) none none)] none none none)]⟩
        (fun _ _ => some "boom") "get" "/a"
      = [Event.routeCall (some 1) [], Event.errorCall none "boom"] :=
  ⟨(claim_C8_dispatch NewRouter (fun _ _ => none) "GET" "/x").2.2.1 rfl,
   (claim_C8_dispatch NewRouter (fun _ _ => none) "GET" "/x").2.2.2.1 rfl,
   ((claim_C8_dispatch
      ⟨[("get", Subrouter.mk [("a", Subrouter.mk [] (some 1) none none)] none none none)]⟩
      (fun _ _ => some "boom") "get" "/a").2.2.2.2 "boom" rfl).1⟩

/-- Claim C9: all three registration operations depend on the url only
through its non-empty segments, so paths differing only in leading,
trailing or duplicated slashes address the same trie node; in particular,
after SetDefault at (m, "/foo") a SetDefault at (m, "/foo/") panics as a
duplicate, even though at match time the two spellings resolve to
different defaults (shown by the final concrete scenario with defaults 2
at "/" and 1 at "/foo"). -/
theorem claim_C9_slashNormalization :
    (∀ (r : Router) (m u₁ u₂ : String) (i : Nat),
      (splitGo u₁).filter (fun q => !decide (q = ""))
        = (splitGo u₂).filter (fun q => !decide (q = "")) →
      Router.Handle r m u₁ i = Router.Handle r m u₂ i ∧
      Router.SetDefault r m u₁ i = Router.SetDefault r m u₂ i ∧
      Router.SetErrorHandler r m u₁ i = Router.SetErrorHandler r m u₂ i) ∧
    (∀ (m : String) (i j : Nat) (r₁ : Router),
      Router.SetDefault NewRouter m "/foo" i = some r₁ →
      Router.SetDefault r₁ m "/foo/" j = none) ∧
    ((Router.SetDefault NewRouter "get" "/foo" 1).bind (fun r =>
        Router.SetDefault r "get" "/" 2)).map (fun r =>
      (resolve r "get" "/foo", resolve r "get" "/foo/"))
      = some ((some 2, []), (some 1, [])) := by
  refine ⟨?_, ?_, ?_⟩
  · intro r m u₁ u₂ i hfeq
    have key : ∀ f : Subrouter → Option Subrouter,
        Router.register r m u₁ f = Router.register r m u₂ f := by
      intro f
      unfold Router.register
      rw [insertSubrouter_filter (splitGo u₁), insertSubrouter_filter (splitGo u₂), hfeq]
    exact ⟨key _, key _, key _⟩
  · intro m i j r₁ h
    have hcomp : Router.SetDefault NewRouter m "/foo" i
        = some ⟨[(toLowerGo m,
            Subrouter.mk [("foo", Subrouter.mk [] none (some i) none)] none none none)]⟩ := rfl
    rw [hcomp] at h
    obtain rfl := Option.some.inj h
    unfold Router.SetDefault
    apply register_none
    have hD : nodeAtD
        (⟨[(toLowerGo m,
            Subrouter.mk [("foo", Subrouter.mk [] none (some i) none)] none none none)]⟩ :
          Router) m "/foo/"
        = Subrouter.mk [] none (some i) none := by
      show walkLitD
        ((lookupChild
            [(toLowerGo m,
              Subrouter.mk [("foo", Subrouter.mk [] none (some i) none)] none none none)]
            (toLowerGo m)).getD newSubrouter)
        (splitGo "/foo/") = Subrouter.mk [] none (some i) none
      rw [lookupChild_cons_self]
      rfl
    rw [hD]
    rfl
  · decide

/-- Witness for C9: "/foo" and "foo//" register the same route, and a
SetDefault at ("get", "/foo/") after one at ("get", "/foo") panics. -/
theorem claim_C9_witness :
    Router.Handle NewRouter "get" "/foo" 1 = Router.Handle NewRouter "get" "foo//" 1 ∧
    Router.SetDefault
        ⟨[("get", Subrouter.mk [("foo", Subrouter.mk [] none (some 1) none)] none none none)]⟩
        "get" "/foo/" 2 = none :=
  ⟨(claim_C9_slashNormalization.1 NewRouter "get" "/foo" "foo//" 1 (by decide)).1,
   claim_C9_slashNormalization.2.1 "get" 1 2
     ⟨[("get", Subrouter.mk [("foo", Subrouter.mk [] none (some 1) none)] none none none)]⟩
     rfl⟩
